import Mathlib

/-!
Shallow embedding of `src/services/SpeechService.ts` (the dual-backend
text-to-speech orchestrator of the Hanzilianxiqi repository).

The service is promise-based and all interesting control flow is decided by
the outcomes of external calls (the Azure cloud synthesizer, the Web Speech
API, and the HTMLAudioElement playback).  We model those outcomes as oracle
inputs and embed each method as a pure function returning its settled result
(`Except String Unit`, errors being JS `Error` messages), the final mutable
state of the service object, and a trace of observable side effects.

JS truthiness quirks of the source are modelled faithfully:
`options.rate || 1` treats an explicit `0` as absent, and
`options.voice || this.config.voice` treats the empty string as absent.
-/

/-- A platform voice as returned by `window.speechSynthesis.getVoices()`:
a name and a BCP-47 language tag. -/
structure Voice where
  name : String
  lang : String
  deriving Repr, DecidableEq

/-- `AzureTTSConfig` from the source: subscription key, region, language and
default voice name. -/
structure AzureTTSConfig where
  subscriptionKey : String
  region : String
  language : String
  voice : String
  deriving Repr, DecidableEq

/-- `DEFAULT_CONFIG` from the source, with the placeholder subscription key. -/
def DEFAULT_CONFIG : AzureTTSConfig :=
  { subscriptionKey := "your-azure-key"
    region := "eastasia"
    language := "zh-CN"
    voice := "zh-CN-XiaoxiaoNeural" }

/-- `SpeechOptions` from the source.  Numbers are modelled as rationals;
`none` is an absent (undefined) option. -/
structure SpeechOptions where
  rate : Option Rat := none
  pitch : Option Rat := none
  volume : Option Rat := none
  voice : Option String := none
  deriving Repr, DecidableEq

/-- JS `x || d` on an optional number: `undefined` and `0` are falsy. -/
def jsOrNum (o : Option Rat) (d : Rat) : Rat :=
  match o with
  | some x => if x = 0 then d else x
  | none => d

/-- JS `x || d` on an optional string: `undefined` and `""` are falsy. -/
def jsOrStr (o : Option String) (d : String) : String :=
  match o with
  | some s => if s = "" then d else s
  | none => d

/-- JS `String.prototype.includes`: substring containment. -/
def jsIncludes (s pat : String) : Bool :=
  decide (pat.data <:+: s.data)

/-- The mutable fields of the `SpeechService` object: whether `this.audio`
has been created, and the `this.isSpeaking` flag. -/
structure SpeechState where
  audioExists : Bool
  isSpeaking : Bool
  deriving Repr, DecidableEq

/-- The fields the cloud adapter (`synthesizeSpeech`) interpolates into the
speech configuration and the SSML document before issuing the request. -/
structure CloudRequest where
  speechConfigVoice : String
  ssmlLang : String
  ssmlVoice : String
  ssmlRate : Rat
  ssmlPitchPercent : Rat
  ssmlVolume : Rat
  ssmlText : String
  deriving Repr, DecidableEq

/-- A JS number rendered into the SSML template literal. -/
def ratToJsString (r : Rat) : String :=
  if r.den = 1 then toString r.num else toString r

/-- The `pitch` attribute of the SSML prosody element:
the interpolation renders the number followed by a percent sign. -/
def pitchAttr (req : CloudRequest) : String :=
  ratToJsString req.ssmlPitchPercent ++ "%"

/-- The `SpeechSynthesisUtterance` built by `speakWithWebSpeech`: text,
language, the optional rate/pitch/volume properties (`none` means the
property was never assigned, leaving the platform default), and the
selected platform voice name (`none` means the platform default voice). -/
structure Utterance where
  text : String
  lang : String
  rate : Option Rat
  pitch : Option Rat
  volume : Option Rat
  voice : Option String
  deriving Repr, DecidableEq

/-- Observable side effects of the service, in program order. -/
inductive Effect where
  /-- a synthesis request was issued to the Azure cloud backend -/
  | cloudRequest (req : CloudRequest)
  /-- `this.stop()` was entered -/
  | stopCalled
  /-- `this.audio.pause()` (and `currentTime = 0`) ran inside `stop` -/
  | audioPause
  /-- `window.speechSynthesis.cancel()` ran inside `stop` -/
  | webSpeechCancel
  /-- `window.speechSynthesis.speak(utterance)` started a local utterance -/
  | localStart (u : Utterance)
  /-- `URL.createObjectURL` allocated an object URL for the audio bytes -/
  | createObjectURL (data : List Nat)
  /-- `this.audio.play()` was invoked -/
  | audioPlay
  /-- `URL.revokeObjectURL` released the object URL -/
  | revokeObjectURL
  /-- `console.error(tag, err)` ran -/
  | consoleError (tag : String) (err : String)
  deriving Repr, DecidableEq

/-- Outcome of the Azure `speakSsmlAsync` call, when one is issued. -/
inductive CloudOutcome where
  /-- `SynthesizingAudioCompleted` with the given audio bytes -/
  | success (data : List Nat)
  /-- a non-success reason code with `result.errorDetails` -/
  | failureReason (details : String)
  /-- the error callback fired with a raw error -/
  | transportError (err : String)
  deriving Repr, DecidableEq

/-- Outcome of a started local (Web Speech API) utterance. -/
inductive LocalOutcome where
  /-- the `end` event fired -/
  | ends
  /-- the `error` event fired with `event.error` -/
  | errorEvent (code : String)
  deriving Repr, DecidableEq

/-- Outcome of the audio-element playback started by `playAudioBuffer`.
The first three cases are the single-handler settlements; the fourth is the
co-occurring failure of the HTML dedicated media source failure steps: on a
decode/load failure the platform fires the `error` event at the element AND
rejects the pending `play()` promise, so both handlers run. -/
inductive PlaybackOutcome where
  /-- the `ended` event fired (natural completion) -/
  | ended
  /-- the `error` event of the audio element fired (alone) -/
  | errorEvent (ev : String)
  /-- the `this.audio.play()` promise rejected (alone, e.g. an autoplay
  policy rejection with no media error) -/
  | playRejected (err : String)
  /-- a decode/load failure: the `error` event fired AND the pending
  `play()` promise rejected (dedicated media source failure steps fire the
  event first, then reject pending play promises) -/
  | errorEventAndPlayRejected (ev : String) (err : String)
  deriving Repr, DecidableEq

/-- The environment a `speak` call runs in: platform availability, the
platform voice list, and the oracle outcomes of each external call in call
order (`localOutcome1` feeds the first `speakWithWebSpeech` call of the run,
`localOutcome2` the second, if any). -/
structure Env where
  cloudOutcome : CloudOutcome
  webSpeechAvailable : Bool
  voices : List Voice
  localOutcome1 : LocalOutcome
  localOutcome2 : LocalOutcome
  playbackOutcome : PlaybackOutcome
  deriving Repr, DecidableEq

instance exceptDecEq {ε α : Type} [DecidableEq ε] [DecidableEq α] :
    DecidableEq (Except ε α) := fun x y =>
  match x, y with
  | Except.ok a, Except.ok b =>
      if h : a = b then Decidable.isTrue (by rw [h])
      else Decidable.isFalse (fun hc => h (by cases hc; rfl))
  | Except.error a, Except.error b =>
      if h : a = b then Decidable.isTrue (by rw [h])
      else Decidable.isFalse (fun hc => h (by cases hc; rfl))
  | Except.ok _, Except.error _ => Decidable.isFalse (fun hc => Except.noConfusion hc)
  | Except.error _, Except.ok _ => Decidable.isFalse (fun hc => Except.noConfusion hc)

/-- Result of one embedded method call: the settled value of its promise,
the service state afterwards, and the effect trace. -/
structure CallResult where
  result : Except String Unit
  state : SpeechState
  effects : List Effect
  deriving Repr, DecidableEq

/-- `stop()` from the source: pauses and rewinds the audio element when one
exists, cancels Web Speech when it is available and `isSpeaking` is set,
then clears `isSpeaking`.  Every operation in the body is non-throwing, so
the embedding is a total function. -/
def SpeechService.stop (webSpeechAvailable : Bool) (s : SpeechState) :
    SpeechState × List Effect :=
  ({ audioExists := s.audioExists, isSpeaking := false },
   [Effect.stopCalled]
     ++ (if s.audioExists then [Effect.audioPause] else [])
     ++ (if webSpeechAvailable && s.isSpeaking then [Effect.webSpeechCancel] else []))

/-- `isPlaying()` from the source: returns `this.isSpeaking`. -/
def SpeechService.isPlaying (s : SpeechState) : Bool :=
  s.isSpeaking

/-- The SSML document fields and the speech-config voice assembled by
`synthesizeSpeech` (source lines 59 and 68-76): voice is
`options.voice || config.voice` in both places, rate is `options.rate || 1`,
pitch is `options.pitch || 0` (rendered with a trailing `%`), volume is
`options.volume || 1`, and the text is embedded verbatim. -/
def buildCloudRequest (cfg : AzureTTSConfig) (text : String)
    (options : SpeechOptions) : CloudRequest :=
  { speechConfigVoice := jsOrStr options.voice cfg.voice
    ssmlLang := cfg.language
    ssmlVoice := jsOrStr options.voice cfg.voice
    ssmlRate := jsOrNum options.rate 1
    ssmlPitchPercent := jsOrNum options.pitch 0
    ssmlVolume := jsOrNum options.volume 1
    ssmlText := text }

/-- `synthesizeSpeech` from the source: if the subscription key equals the
placeholder `"your-azure-key"` it resolves `null` without any request;
otherwise it issues the request and settles according to the backend
outcome (`ok (some data)` on success, an error message built from
`result.errorDetails` on a non-success reason, the raw error on a
transport failure). -/
def SpeechService.synthesizeSpeech (cfg : AzureTTSConfig)
    (outcome : CloudOutcome) (text : String) (options : SpeechOptions) :
    Except String (Option (List Nat)) × List Effect :=
  if cfg.subscriptionKey = "your-azure-key" then
    (Except.ok none, [])
  else
    let req := buildCloudRequest cfg text options
    match outcome with
    | CloudOutcome.success data => (Except.ok (some data), [Effect.cloudRequest req])
    | CloudOutcome.failureReason d =>
        (Except.error ("语音合成失败: " ++ d), [Effect.cloudRequest req])
    | CloudOutcome.transportError e =>
        (Except.error e, [Effect.cloudRequest req])

/-- The utterance assembled by `speakWithWebSpeech` (source lines 118-139):
language from the config; rate/pitch/volume assigned only when the option
is truthy (a JS `0` leaves the platform default); the voice set to the
first platform voice whose name contains `options.voice` and whose language
tag contains `config.language`, when `options.voice` is truthy and such a
voice exists. -/
def mkUtterance (cfg : AzureTTSConfig) (voices : List Voice) (text : String)
    (options : SpeechOptions) : Utterance :=
  { text := text
    lang := cfg.language
    rate := match options.rate with
      | some r => if r = 0 then none else some r
      | none => none
    pitch := match options.pitch with
      | some p => if p = 0 then none else some p
      | none => none
    volume := match options.volume with
      | some v => if v = 0 then none else some v
      | none => none
    voice := match options.voice with
      | some v =>
          if v = "" then none
          else
            match voices.find? (fun pv =>
                jsIncludes pv.name v && jsIncludes pv.lang cfg.language) with
            | some pv => some pv.name
            | none => none
      | none => none }

/-- `speakWithWebSpeech` from the source: rejects with the
unsupported-platform error when `window.speechSynthesis` is absent;
otherwise calls `this.stop()`, builds the utterance, starts it with
`isSpeaking = true`, and settles on the utterance outcome (resolving on
`end`, rejecting with the error-event message on `error`), clearing
`isSpeaking` either way. -/
def SpeechService.speakWithWebSpeech (cfg : AzureTTSConfig)
    (webSpeechAvailable : Bool) (voices : List Voice)
    (outcome : LocalOutcome) (s : SpeechState) (text : String)
    (options : SpeechOptions) : CallResult :=
  if webSpeechAvailable = false then
    { result := Except.error "您的浏览器不支持语音合成", state := s, effects := [] }
  else
    let stopped := SpeechService.stop webSpeechAvailable s
    let u := mkUtterance cfg voices text options
    let effs := stopped.2 ++ [Effect.localStart u]
    match outcome with
    | LocalOutcome.ends =>
        { result := Except.ok ()
          state := { audioExists := stopped.1.audioExists, isSpeaking := false }
          effects := effs }
    | LocalOutcome.errorEvent c =>
        { result := Except.error ("语音合成错误: " ++ c)
          state := { audioExists := stopped.1.audioExists, isSpeaking := false }
          effects := effs }

/-- `playAudioBuffer` from the source: creates an object URL for the bytes,
creates the audio element if needed, starts playback with
`isSpeaking = true`, and settles on the playback outcome — resolving on the
`ended` event, rejecting with the playback-error message on the `error`
event of the audio element, and rejecting with the raw error when `play()` itself
rejects.  Each handler clears `isSpeaking` and revokes the object URL; on a
decode/load failure the `onerror` handler and the `play().catch` handler
BOTH run (the error event is fired first, so its rejection settles the
promise; the later `reject` from the catch handler is a no-op on the
settled promise, but its `URL.revokeObjectURL(url)` still runs), revoking
the object URL twice.  The method never calls `this.stop()`. -/
def SpeechService.playAudioBuffer (outcome : PlaybackOutcome)
    (s : SpeechState) (data : List Nat) : CallResult :=
  let s₁ : SpeechState := { audioExists := true, isSpeaking := s.isSpeaking }
  match outcome with
  | PlaybackOutcome.ended =>
      { result := Except.ok ()
        state := { s₁ with isSpeaking := false }
        effects := [Effect.createObjectURL data, Effect.audioPlay, Effect.revokeObjectURL] }
  | PlaybackOutcome.errorEvent ev =>
      { result := Except.error ("音频播放错误: " ++ ev)
        state := { s₁ with isSpeaking := false }
        effects := [Effect.createObjectURL data, Effect.audioPlay, Effect.revokeObjectURL] }
  | PlaybackOutcome.playRejected e =>
      { result := Except.error e
        state := { s₁ with isSpeaking := false }
        effects := [Effect.createObjectURL data, Effect.audioPlay, Effect.revokeObjectURL] }
  | PlaybackOutcome.errorEventAndPlayRejected ev _ =>
      { result := Except.error ("音频播放错误: " ++ ev)
        state := { s₁ with isSpeaking := false }
        effects := [Effect.createObjectURL data, Effect.audioPlay,
                    Effect.revokeObjectURL, Effect.revokeObjectURL] }

/-- Result of a `speak` call: the settled value of the returned promise, the
eventual service state, the effect trace, and — because the source calls
`this.playAudioBuffer(audioData)` WITHOUT `await` — the eventual unhandled
rejection of the floating playback promise, when it rejects. -/
structure SpeakResult where
  result : Except String Unit
  state : SpeechState
  effects : List Effect
  unhandledRejection : Option String
  deriving Repr, DecidableEq

/-- `speak` from the source, embedded exactly as written:
`await synthesizeSpeech`; on non-null bytes, `this.playAudioBuffer(bytes)`
with NO `await`, so `speak` resolves regardless of the playback outcome and
a playback rejection is unhandled; on null bytes, `await speakWithWebSpeech`;
any error from the `try` block is logged and one fallback
`speakWithWebSpeech` is attempted, whose failure is logged and the ORIGINAL
error rethrown. -/
def SpeechService.speak (cfg : AzureTTSConfig) (env : Env) (s : SpeechState)
    (text : String) (options : SpeechOptions) : SpeakResult :=
  match SpeechService.synthesizeSpeech cfg env.cloudOutcome text options with
  | (Except.ok (some data), effs) =>
      let p := SpeechService.playAudioBuffer env.playbackOutcome s data
      { result := Except.ok ()
        state := p.state
        effects := effs ++ p.effects
        unhandledRejection :=
          match p.result with
          | Except.ok _ => none
          | Except.error e => some e }
  | (Except.ok none, effs) =>
      let first := SpeechService.speakWithWebSpeech cfg env.webSpeechAvailable
        env.voices env.localOutcome1 s text options
      match first.result with
      | Except.ok _ =>
          { result := Except.ok (), state := first.state
            effects := effs ++ first.effects, unhandledRejection := none }
      | Except.error e =>
          let second := SpeechService.speakWithWebSpeech cfg env.webSpeechAvailable
            env.voices env.localOutcome2 first.state text options
          match second.result with
          | Except.ok _ =>
              { result := Except.ok (), state := second.state
                effects := effs ++ first.effects
                  ++ [Effect.consoleError "语音合成失败:" e] ++ second.effects
                unhandledRejection := none }
          | Except.error e2 =>
              { result := Except.error e, state := second.state
                effects := effs ++ first.effects
                  ++ [Effect.consoleError "语音合成失败:" e] ++ second.effects
                  ++ [Effect.consoleError "Web Speech API也失败:" e2]
                unhandledRejection := none }
  | (Except.error e, effs) =>
      let fallback := SpeechService.speakWithWebSpeech cfg env.webSpeechAvailable
        env.voices env.localOutcome1 s text options
      match fallback.result with
      | Except.ok _ =>
          { result := Except.ok (), state := fallback.state
            effects := effs ++ [Effect.consoleError "语音合成失败:" e] ++ fallback.effects
            unhandledRejection := none }
      | Except.error e2 =>
          { result := Except.error e, state := fallback.state
            effects := effs ++ [Effect.consoleError "语音合成失败:" e] ++ fallback.effects
              ++ [Effect.consoleError "Web Speech API也失败:" e2]
            unhandledRejection := none }

/-- The filter applied by `getAvailableVoices` in both of its branches:
keep the voices whose language tag contains `"zh"` and return their names. -/
def chineseVoicesOf (voices : List Voice) : List String :=
  (voices.filter (fun v => jsIncludes v.lang "zh")).map (fun v => v.name)

/-- `getAvailableVoices` from the source: resolves `[]` when
`window.speechSynthesis` is absent; otherwise filters the already-loaded
voices, or — when none are loaded yet — the voices delivered by the
`voiceschanged` event, keeping only those whose language tag contains
`"zh"` and returning their names. -/
def SpeechService.getAvailableVoices (webSpeechAvailable : Bool)
    (initialVoices laterVoices : List Voice) : List String :=
  if webSpeechAvailable = false then []
  else if initialVoices.isEmpty then chineseVoicesOf laterVoices
  else chineseVoicesOf initialVoices

/-- Claim C6 counterexample: on a decode/load failure — where the platform
fires the `error` event at the audio element and also rejects the pending
`play()` promise — both the `onerror` handler and the `play().catch`
handler run `URL.revokeObjectURL(url)`, so the object URL of that playback
is revoked twice, not exactly once. -/
theorem C6_counterexample_double_release :
    ((SpeechService.playAudioBuffer
      (PlaybackOutcome.errorEventAndPlayRejected "decode" "NotSupportedError")
      { audioExists := false, isSpeaking := true } [1]).effects
        = [Effect.createObjectURL [1], Effect.audioPlay,
           Effect.revokeObjectURL, Effect.revokeObjectURL]) ∧
    ((SpeechService.playAudioBuffer
      (PlaybackOutcome.errorEventAndPlayRejected "decode" "NotSupportedError")
      { audioExists := false, isSpeaking := true } [1]).effects.count
        Effect.revokeObjectURL = 2) ∧
    ¬ ((SpeechService.playAudioBuffer
      (PlaybackOutcome.errorEventAndPlayRejected "decode" "NotSupportedError")
      { audioExists := false, isSpeaking := true } [1]).effects.count
        Effect.revokeObjectURL = 1) := by
  decide

/-- Claim C6 (amended): no exit path of `playAudioBuffer` leaks the object
URL, and each settlement handler releases it exactly once: the trace of a
natural end, of an error event alone, and of a `play()` rejection alone
each contain exactly one `revokeObjectURL`; but on a decode/load failure,
where the error event and the `play()` rejection co-occur, both handlers
run and the URL is revoked twice — release is not exactly-once on that
path.  Every path creates the URL exactly once. -/
theorem C6_amended_release_once_per_handler :
    ∀ (s : SpeechState) (data : List Nat) (ev err : String),
      ((SpeechService.playAudioBuffer PlaybackOutcome.ended s data).effects.count
          Effect.revokeObjectURL = 1) ∧
      ((SpeechService.playAudioBuffer (PlaybackOutcome.errorEvent ev) s data).effects.count
          Effect.revokeObjectURL = 1) ∧
      ((SpeechService.playAudioBuffer (PlaybackOutcome.playRejected err) s data).effects.count
          Effect.revokeObjectURL = 1) ∧
      ((SpeechService.playAudioBuffer
          (PlaybackOutcome.errorEventAndPlayRejected ev err) s data).effects.count
          Effect.revokeObjectURL = 2) ∧
      (∀ (outcome : PlaybackOutcome),
        (SpeechService.playAudioBuffer outcome s data).effects.count
          (Effect.createObjectURL data) = 1) := by
  intro s data ev err
  refine ⟨?_, ?_, ?_, ?_, ?_⟩
  · simp [SpeechService.playAudioBuffer, List.count_cons, List.count_nil]
  · simp [SpeechService.playAudioBuffer, List.count_cons, List.count_nil]
  · simp [SpeechService.playAudioBuffer, List.count_cons, List.count_nil]
  · simp [SpeechService.playAudioBuffer, List.count_cons, List.count_nil]
  · intro outcome
    cases outcome <;>
      simp [SpeechService.playAudioBuffer, List.count_cons, List.count_nil]

/-- Claim C7: `stop()` is total (its embedding can always return a state:
no operation in its body throws), leaves `isPlaying` reporting `false`
after every call, and repeated calls are idempotent on the service state,
so calling it when nothing is playing is a safe no-op. -/
theorem C7_stop_idempotent_and_silences :
    ∀ (avail : Bool) (s : SpeechState),
      SpeechService.isPlaying (SpeechService.stop avail s).1 = false ∧
      (SpeechService.stop avail (SpeechService.stop avail s).1).1
        = (SpeechService.stop avail s).1 := by
  intro avail s
  constructor <;> simp [SpeechService.stop, SpeechService.isPlaying]

/-- Claim C9: an explicit `0` passed for rate, pitch or volume is treated as
absent: the cloud request embeds the defaults (rate 1, pitch 0, volume 1)
and the local utterance leaves the corresponding property unassigned, so an
explicit `0` is indistinguishable from omitting the option. -/
theorem C9_zero_options_treated_as_absent :
    ∀ (cfg : AzureTTSConfig) (voices : List Voice) (text : String),
      buildCloudRequest cfg text { rate := some 0, pitch := some 0, volume := some 0 }
        = buildCloudRequest cfg text {} ∧
      (buildCloudRequest cfg text { rate := some 0, pitch := some 0, volume := some 0 }).ssmlRate = 1 ∧
      (buildCloudRequest cfg text { rate := some 0, pitch := some 0, volume := some 0 }).ssmlPitchPercent = 0 ∧
      (buildCloudRequest cfg text { rate := some 0, pitch := some 0, volume := some 0 }).ssmlVolume = 1 ∧
      mkUtterance cfg voices text { rate := some 0, pitch := some 0, volume := some 0 }
        = mkUtterance cfg voices text {} ∧
      (mkUtterance cfg voices text { rate := some 0, pitch := some 0, volume := some 0 }).rate = none ∧
      (mkUtterance cfg voices text { rate := some 0, pitch := some 0, volume := some 0 }).pitch = none ∧
      (mkUtterance cfg voices text { rate := some 0, pitch := some 0, volume := some 0 }).volume = none := by
  intro cfg voices text
  refine ⟨?_, ?_, ?_, ?_, ?_, ?_, ?_, ?_⟩ <;>
    simp [buildCloudRequest, mkUtterance, jsOrNum]

/-- Claim C10: when the platform synthesizer is available,
`getAvailableVoices` returns exactly the names of the voices whose language
tag contains the substring `"zh"` (taken from the already-loaded list, or
from the list delivered by the voiceschanged event when none were loaded);
all other voices are excluded. -/
theorem C10_voice_list_filtered_to_zh :
    ∀ (initial later : List Voice) (n : String),
      n ∈ SpeechService.getAvailableVoices true initial later ↔
        ∃ v, v ∈ (if initial.isEmpty then later else initial) ∧
          v.name = n ∧ "zh".data <:+: v.lang.data := by
  intro initial later n
  by_cases h : initial.isEmpty <;>
    simp [SpeechService.getAvailableVoices, chineseVoicesOf, h, jsIncludes,
      List.mem_filter, List.mem_map, decide_eq_true_eq] <;>
    constructor <;>
    · rintro ⟨v, hv⟩
      exact ⟨v, by tauto⟩

/-- Claim C1 (code bug): with a configured key, cloud synthesis succeeding
with bytes `[1,2,3]`, and the audio element erroring during playback, the
source calls `this.playAudioBuffer(audioData)` without `await`, so `speak`
resolves even though playback errored; the rejection of the floating
playback promise is unhandled and no fallback to the local backend occurs
(the trace holds no `localStart`). -/
theorem C1_code_bug_missing_await :
    (SpeechService.speak { DEFAULT_CONFIG with subscriptionKey := "real-key" }
      { cloudOutcome := CloudOutcome.success [1, 2, 3]
        webSpeechAvailable := true
        voices := []
        localOutcome1 := LocalOutcome.ends
        localOutcome2 := LocalOutcome.ends
        playbackOutcome := PlaybackOutcome.errorEvent "decode" }
      { audioExists := false, isSpeaking := false } "你好" {}).result
        = Except.ok () ∧
    (SpeechService.speak { DEFAULT_CONFIG with subscriptionKey := "real-key" }
      { cloudOutcome := CloudOutcome.success [1, 2, 3]
        webSpeechAvailable := true
        voices := []
        localOutcome1 := LocalOutcome.ends
        localOutcome2 := LocalOutcome.ends
        playbackOutcome := PlaybackOutcome.errorEvent "decode" }
      { audioExists := false, isSpeaking := false } "你好" {}).unhandledRejection
        = some "音频播放错误: decode" ∧
    (SpeechService.speak { DEFAULT_CONFIG with subscriptionKey := "real-key" }
      { cloudOutcome := CloudOutcome.success [1, 2, 3]
        webSpeechAvailable := true
        voices := []
        localOutcome1 := LocalOutcome.ends
        localOutcome2 := LocalOutcome.ends
        playbackOutcome := PlaybackOutcome.errorEvent "decode" }
      { audioExists := false, isSpeaking := false } "你好" {}).effects
        = [Effect.cloudRequest (buildCloudRequest
            { DEFAULT_CONFIG with subscriptionKey := "real-key" } "你好" {}),
           Effect.createObjectURL [1, 2, 3], Effect.audioPlay,
           Effect.revokeObjectURL] := by
  decide

/-- Claim C2 counterexample: `speak("", {rate: 3.0})` with the default
(unconfigured) config does not reject with any validation error — it
resolves, and the local backend IS contacted: a local utterance with the
empty text and the out-of-range rate `3` forwarded verbatim is started. -/
theorem C2_counterexample_no_validation :
    (SpeechService.speak DEFAULT_CONFIG
      { cloudOutcome := CloudOutcome.success []
        webSpeechAvailable := true
        voices := []
        localOutcome1 := LocalOutcome.ends
        localOutcome2 := LocalOutcome.ends
        playbackOutcome := PlaybackOutcome.ended }
      { audioExists := false, isSpeaking := false } "" { rate := some 3 }).result
        = Except.ok () ∧
    (SpeechService.speak DEFAULT_CONFIG
      { cloudOutcome := CloudOutcome.success []
        webSpeechAvailable := true
        voices := []
        localOutcome1 := LocalOutcome.ends
        localOutcome2 := LocalOutcome.ends
        playbackOutcome := PlaybackOutcome.ended }
      { audioExists := false, isSpeaking := false } "" { rate := some 3 }).effects
        = [Effect.stopCalled,
           Effect.localStart { text := "", lang := "zh-CN", rate := some 3,
                               pitch := none, volume := none, voice := none }] := by
  decide

/-- Claim C3 counterexample: with a local utterance session active
(`isPlaying` true), starting playback of cloud audio runs `playAudioBuffer`
to the `audioPlay` effect without ever invoking `stop()` and without
cancelling Web Speech: the trace of the `speak` call holds neither
`stopCalled` nor `webSpeechCancel`, so the active local utterance is not
stopped before the new playback starts. -/
theorem C3_counterexample_cloud_play_skips_stop :
    SpeechService.isPlaying { audioExists := false, isSpeaking := true } = true ∧
    Effect.audioPlay ∈ (SpeechService.speak
      { DEFAULT_CONFIG with subscriptionKey := "real-key" }
      { cloudOutcome := CloudOutcome.success [1]
        webSpeechAvailable := true
        voices := []
        localOutcome1 := LocalOutcome.ends
        localOutcome2 := LocalOutcome.ends
        playbackOutcome := PlaybackOutcome.ended }
      { audioExists := false, isSpeaking := true } "你好" {}).effects ∧
    Effect.stopCalled ∉ (SpeechService.speak
      { DEFAULT_CONFIG with subscriptionKey := "real-key" }
      { cloudOutcome := CloudOutcome.success [1]
        webSpeechAvailable := true
        voices := []
        localOutcome1 := LocalOutcome.ends
        localOutcome2 := LocalOutcome.ends
        playbackOutcome := PlaybackOutcome.ended }
      { audioExists := false, isSpeaking := true } "你好" {}).effects ∧
    Effect.webSpeechCancel ∉ (SpeechService.speak
      { DEFAULT_CONFIG with subscriptionKey := "real-key" }
      { cloudOutcome := CloudOutcome.success [1]
        webSpeechAvailable := true
        voices := []
        localOutcome1 := LocalOutcome.ends
        localOutcome2 := LocalOutcome.ends
        playbackOutcome := PlaybackOutcome.ended }
      { audioExists := false, isSpeaking := true } "你好" {}).effects := by
  decide

/-- Claim C2 (amended): `speak` performs no validation and no clamping:
empty text and nonzero out-of-range rate/pitch/volume are forwarded to the
backends verbatim — the cloud request embeds the given values and text
unchanged, the local utterance receives them unchanged, and a `speak` call
with any such text and options still contacts the local backend and
resolves (no validation rejection exists). -/
theorem C2_amended_no_validation_no_clamping :
    ∀ (cfg : AzureTTSConfig) (voices : List Voice) (text : String) (r p v : Rat),
      r ≠ 0 → p ≠ 0 → v ≠ 0 →
      (buildCloudRequest cfg text { rate := some r, pitch := some p, volume := some v }).ssmlRate = r ∧
      (buildCloudRequest cfg text { rate := some r, pitch := some p, volume := some v }).ssmlPitchPercent = p ∧
      (buildCloudRequest cfg text { rate := some r, pitch := some p, volume := some v }).ssmlVolume = v ∧
      (buildCloudRequest cfg text { rate := some r, pitch := some p, volume := some v }).ssmlText = text ∧
      (mkUtterance cfg voices text { rate := some r, pitch := some p, volume := some v }).rate = some r ∧
      (mkUtterance cfg voices text { rate := some r, pitch := some p, volume := some v }).pitch = some p ∧
      (mkUtterance cfg voices text { rate := some r, pitch := some p, volume := some v }).volume = some v ∧
      (SpeechService.speak DEFAULT_CONFIG
        { cloudOutcome := CloudOutcome.success []
          webSpeechAvailable := true
          voices := voices
          localOutcome1 := LocalOutcome.ends
          localOutcome2 := LocalOutcome.ends
          playbackOutcome := PlaybackOutcome.ended }
        { audioExists := false, isSpeaking := false } text
        { rate := some r, pitch := some p, volume := some v }).result = Except.ok () ∧
      Effect.localStart (mkUtterance DEFAULT_CONFIG voices text
          { rate := some r, pitch := some p, volume := some v })
        ∈ (SpeechService.speak DEFAULT_CONFIG
        { cloudOutcome := CloudOutcome.success []
          webSpeechAvailable := true
          voices := voices
          localOutcome1 := LocalOutcome.ends
          localOutcome2 := LocalOutcome.ends
          playbackOutcome := PlaybackOutcome.ended }
        { audioExists := false, isSpeaking := false } text
        { rate := some r, pitch := some p, volume := some v }).effects := by
  intro cfg voices text r p v hr hp hv
  refine ⟨?_, ?_, ?_, ?_, ?_, ?_, ?_, ?_, ?_⟩ <;>
    simp [buildCloudRequest, mkUtterance, jsOrNum, hr, hp, hv,
      SpeechService.speak, SpeechService.synthesizeSpeech, DEFAULT_CONFIG,
      SpeechService.speakWithWebSpeech, SpeechService.stop]

/-- Witness for `C2_amended_no_validation_no_clamping` at the concrete
out-of-range input text = "", rate 3, pitch 3, volume 2. -/
theorem C2_amended_no_validation_no_clamping_witness :
    (buildCloudRequest DEFAULT_CONFIG "" { rate := some 3, pitch := some 3, volume := some 2 }).ssmlRate = 3 ∧
    (mkUtterance DEFAULT_CONFIG [] "" { rate := some 3, pitch := some 3, volume := some 2 }).rate = some 3 ∧
    (SpeechService.speak DEFAULT_CONFIG
      { cloudOutcome := CloudOutcome.success []
        webSpeechAvailable := true
        voices := []
        localOutcome1 := LocalOutcome.ends
        localOutcome2 := LocalOutcome.ends
        playbackOutcome := PlaybackOutcome.ended }
      { audioExists := false, isSpeaking := false } ""
      { rate := some 3, pitch := some 3, volume := some 2 }).result = Except.ok () := by
  have h := C2_amended_no_validation_no_clamping DEFAULT_CONFIG [] "" 3 3 2
    (by decide) (by decide) (by decide)
  exact ⟨h.1, h.2.2.2.2.1, h.2.2.2.2.2.2.2.1⟩

/-- Claim C3 (amended): before a local utterance starts,
`speakWithWebSpeech` first invokes `stop()` (the first effect of its trace
is `stopCalled`), and the new call is not rejected by this implicit
cancellation (with a normally-ending utterance it resolves); but starting
playback of cloud audio does not invoke `stop()`: no `playAudioBuffer`
trace ever holds `stopCalled`, so only the local path enforces the
single-session invariant. -/
theorem C3_amended_only_local_path_stops_first :
    ∀ (cfg : AzureTTSConfig) (voices : List Voice) (outcome : LocalOutcome)
      (s : SpeechState) (text : String) (opts : SpeechOptions),
      ((SpeechService.speakWithWebSpeech cfg true voices outcome s text opts).effects.head?
        = some Effect.stopCalled) ∧
      (outcome = LocalOutcome.ends →
        (SpeechService.speakWithWebSpeech cfg true voices outcome s text opts).result
          = Except.ok ()) ∧
      (∀ (po : PlaybackOutcome) (s₂ : SpeechState) (data : List Nat),
        Effect.stopCalled ∉ (SpeechService.playAudioBuffer po s₂ data).effects) := by
  intro cfg voices outcome s text opts
  refine ⟨?_, ?_, ?_⟩
  · cases outcome <;>
      simp [SpeechService.speakWithWebSpeech, SpeechService.stop]
  · intro h
    subst h
    simp [SpeechService.speakWithWebSpeech]
  · intro po s₂ data
    cases po <;> simp [SpeechService.playAudioBuffer]

/-- Witness for `C3_amended_only_local_path_stops_first` at a concrete
input: an active session, text "好", a normally-ending utterance. -/
theorem C3_amended_only_local_path_stops_first_witness :
    ((SpeechService.speakWithWebSpeech DEFAULT_CONFIG true [] LocalOutcome.ends
        { audioExists := false, isSpeaking := true } "好" {}).effects.head?
      = some Effect.stopCalled) ∧
    ((SpeechService.speakWithWebSpeech DEFAULT_CONFIG true [] LocalOutcome.ends
        { audioExists := false, isSpeaking := true } "好" {}).result
      = Except.ok ()) ∧
    Effect.stopCalled ∉ (SpeechService.playAudioBuffer PlaybackOutcome.ended
      { audioExists := false, isSpeaking := false } [2]).effects := by
  have h := C3_amended_only_local_path_stops_first DEFAULT_CONFIG []
    LocalOutcome.ends { audioExists := false, isSpeaking := true } "好" {}
  exact ⟨h.1, h.2.1 rfl, h.2.2 PlaybackOutcome.ended _ [2]⟩

/-- Claim C4: whenever cloud synthesis fails with a non-success reason
carrying detail `d`, the resulting cloud error is logged (the surfaced
diagnostic carries the cloud detail); `speak` either resolves or rejects
with exactly that original cloud error (never the secondary local error);
and it resolves precisely when the platform synthesizer is available and
the fallback local utterance ends normally. -/
theorem C4_cloud_error_is_the_one_propagated :
    ∀ (cfg : AzureTTSConfig) (env : Env) (s : SpeechState)
      (text : String) (opts : SpeechOptions) (d : String),
      cfg.subscriptionKey ≠ "your-azure-key" →
      env.cloudOutcome = CloudOutcome.failureReason d →
      (Effect.consoleError "语音合成失败:" ("语音合成失败: " ++ d)
          ∈ (SpeechService.speak cfg env s text opts).effects) ∧
      ((SpeechService.speak cfg env s text opts).result = Except.ok () ∨
       (SpeechService.speak cfg env s text opts).result
         = Except.error ("语音合成失败: " ++ d)) ∧
      ((SpeechService.speak cfg env s text opts).result = Except.ok () ↔
        (env.webSpeechAvailable = true ∧ env.localOutcome1 = LocalOutcome.ends)) := by
  intro cfg env s text opts d hk hc
  obtain ⟨co, avail, voices, l1, l2, po⟩ := env
  simp only at hc
  subst hc
  cases avail <;> cases l1 <;>
    simp [SpeechService.speak, SpeechService.synthesizeSpeech, hk,
      SpeechService.speakWithWebSpeech, SpeechService.stop]

/-- Witness for `C4_cloud_error_is_the_one_propagated`: cloud fails with
"quota exceeded", the local fallback succeeds — `speak` resolves and the
diagnostic carries the cloud detail. -/
theorem C4_cloud_error_is_the_one_propagated_witness :
    (Effect.consoleError "语音合成失败:" "语音合成失败: quota exceeded"
        ∈ (SpeechService.speak { DEFAULT_CONFIG with subscriptionKey := "k" }
          { cloudOutcome := CloudOutcome.failureReason "quota exceeded"
            webSpeechAvailable := true
            voices := []
            localOutcome1 := LocalOutcome.ends
            localOutcome2 := LocalOutcome.ends
            playbackOutcome := PlaybackOutcome.ended }
          { audioExists := false, isSpeaking := false } "你好" {}).effects) ∧
    (SpeechService.speak { DEFAULT_CONFIG with subscriptionKey := "k" }
      { cloudOutcome := CloudOutcome.failureReason "quota exceeded"
        webSpeechAvailable := true
        voices := []
        localOutcome1 := LocalOutcome.ends
        localOutcome2 := LocalOutcome.ends
        playbackOutcome := PlaybackOutcome.ended }
      { audioExists := false, isSpeaking := false } "你好" {}).result
        = Except.ok () := by
  have h := C4_cloud_error_is_the_one_propagated
    { DEFAULT_CONFIG with subscriptionKey := "k" }
    { cloudOutcome := CloudOutcome.failureReason "quota exceeded"
      webSpeechAvailable := true
      voices := []
      localOutcome1 := LocalOutcome.ends
      localOutcome2 := LocalOutcome.ends
      playbackOutcome := PlaybackOutcome.ended }
    { audioExists := false, isSpeaking := false } "你好" {} "quota exceeded"
    (by decide) rfl
  exact ⟨h.1, h.2.2.mpr ⟨rfl, rfl⟩⟩

/-- Claim C5: when the subscription key equals the placeholder sentinel
`"your-azure-key"`, no cloud request is ever issued (for any region,
language, default voice, text, options and environment); `speak` completes
via the local backend when it is available and the utterance ends, and
fails with the unsupported-platform error when the platform synthesizer is
unavailable. -/
theorem C5_placeholder_key_never_contacts_cloud :
    ∀ (reg lang dv : String) (env : Env) (s : SpeechState) (text : String)
      (opts : SpeechOptions),
      (∀ req, Effect.cloudRequest req ∉
        (SpeechService.speak ⟨"your-azure-key", reg, lang, dv⟩ env s text opts).effects) ∧
      (env.webSpeechAvailable = false →
        (SpeechService.speak ⟨"your-azure-key", reg, lang, dv⟩ env s text opts).result
          = Except.error "您的浏览器不支持语音合成") ∧
      (env.webSpeechAvailable = true → env.localOutcome1 = LocalOutcome.ends →
        (SpeechService.speak ⟨"your-azure-key", reg, lang, dv⟩ env s text opts).result
          = Except.ok () ∧
        Effect.localStart (mkUtterance ⟨"your-azure-key", reg, lang, dv⟩ env.voices text opts)
          ∈ (SpeechService.speak ⟨"your-azure-key", reg, lang, dv⟩ env s text opts).effects) := by
  intro reg lang dv env s text opts
  obtain ⟨co, avail, voices, l1, l2, po⟩ := env
  refine ⟨?_, ?_, ?_⟩
  · intro req
    cases avail <;> cases l1 <;> cases l2 <;>
      simp [SpeechService.speak, SpeechService.synthesizeSpeech,
        SpeechService.speakWithWebSpeech, SpeechService.stop]
  · intro h
    subst h
    simp [SpeechService.speak, SpeechService.synthesizeSpeech,
      SpeechService.speakWithWebSpeech]
  · intro h hl
    subst h
    subst hl
    simp [SpeechService.speak, SpeechService.synthesizeSpeech,
      SpeechService.speakWithWebSpeech, SpeechService.stop]

/-- Witness for `C5_placeholder_key_never_contacts_cloud` at the default
config fields, an available platform and a normally-ending utterance. -/
theorem C5_placeholder_key_never_contacts_cloud_witness :
    (Effect.cloudRequest (buildCloudRequest DEFAULT_CONFIG "你好" {}) ∉
      (SpeechService.speak ⟨"your-azure-key", "eastasia", "zh-CN", "zh-CN-XiaoxiaoNeural"⟩
        { cloudOutcome := CloudOutcome.success []
          webSpeechAvailable := true
          voices := []
          localOutcome1 := LocalOutcome.ends
          localOutcome2 := LocalOutcome.ends
          playbackOutcome := PlaybackOutcome.ended }
        { audioExists := false, isSpeaking := false } "你好" {}).effects) ∧
    (SpeechService.speak ⟨"your-azure-key", "eastasia", "zh-CN", "zh-CN-XiaoxiaoNeural"⟩
      { cloudOutcome := CloudOutcome.success []
        webSpeechAvailable := true
        voices := []
        localOutcome1 := LocalOutcome.ends
        localOutcome2 := LocalOutcome.ends
        playbackOutcome := PlaybackOutcome.ended }
      { audioExists := false, isSpeaking := false } "你好" {}).result = Except.ok () := by
  have h := C5_placeholder_key_never_contacts_cloud "eastasia" "zh-CN"
    "zh-CN-XiaoxiaoNeural"
    { cloudOutcome := CloudOutcome.success []
      webSpeechAvailable := true
      voices := []
      localOutcome1 := LocalOutcome.ends
      localOutcome2 := LocalOutcome.ends
      playbackOutcome := PlaybackOutcome.ended }
    { audioExists := false, isSpeaking := false } "你好" {}
  exact ⟨h.1 _, (h.2.2 rfl rfl).1⟩

/-- Claim C8: with a configured key and no options, the request issued to
the cloud backend carries the default voice `"zh-CN-XiaoxiaoNeural"` (in
both the speech configuration and the SSML voice element), rate `1`, the
pitch attribute `"0%"`, and volume `1`; a nonempty `options.voice` override
replaces the voice in both places. -/
theorem C8_default_cloud_parameters_and_voice_override :
    ∀ (k text : String) (env : Env) (s : SpeechState) (data : List Nat),
      k ≠ "your-azure-key" →
      env.cloudOutcome = CloudOutcome.success data →
      (Effect.cloudRequest (buildCloudRequest
          { DEFAULT_CONFIG with subscriptionKey := k } text {})
        ∈ (SpeechService.speak { DEFAULT_CONFIG with subscriptionKey := k }
            env s text {}).effects) ∧
      (buildCloudRequest { DEFAULT_CONFIG with subscriptionKey := k } text {}).ssmlVoice
        = "zh-CN-XiaoxiaoNeural" ∧
      (buildCloudRequest { DEFAULT_CONFIG with subscriptionKey := k } text {}).speechConfigVoice
        = "zh-CN-XiaoxiaoNeural" ∧
      (buildCloudRequest { DEFAULT_CONFIG with subscriptionKey := k } text {}).ssmlRate = 1 ∧
      pitchAttr (buildCloudRequest { DEFAULT_CONFIG with subscriptionKey := k } text {}) = "0%" ∧
      (buildCloudRequest { DEFAULT_CONFIG with subscriptionKey := k } text {}).ssmlVolume = 1 ∧
      (∀ vo : String, vo ≠ "" →
        (buildCloudRequest { DEFAULT_CONFIG with subscriptionKey := k } text
          { voice := some vo }).ssmlVoice = vo ∧
        (buildCloudRequest { DEFAULT_CONFIG with subscriptionKey := k } text
          { voice := some vo }).speechConfigVoice = vo) := by
  intro k text env s data hk hc
  obtain ⟨co, avail, voices, l1, l2, po⟩ := env
  simp only at hc
  subst hc
  refine ⟨?_, ?_, ?_, ?_, ?_, ?_, ?_⟩
  · cases po <;>
      simp [SpeechService.speak, SpeechService.synthesizeSpeech, hk,
        SpeechService.playAudioBuffer]
  · simp [buildCloudRequest, jsOrStr, DEFAULT_CONFIG]
  · simp [buildCloudRequest, jsOrStr, DEFAULT_CONFIG]
  · simp [buildCloudRequest, jsOrNum]
  · simp [buildCloudRequest, jsOrNum, pitchAttr]
    rfl
  · simp [buildCloudRequest, jsOrNum]
  · intro vo hvo
    constructor <;> simp [buildCloudRequest, jsOrStr, hvo]

/-- Witness for `C8_default_cloud_parameters_and_voice_override` at key
"k", text "你好", a successful cloud synthesis, and the override voice
"zh-CN-YunxiNeural". -/
theorem C8_default_cloud_parameters_and_voice_override_witness :
    (Effect.cloudRequest (buildCloudRequest
        { DEFAULT_CONFIG with subscriptionKey := "k" } "你好" {})
      ∈ (SpeechService.speak { DEFAULT_CONFIG with subscriptionKey := "k" }
          { cloudOutcome := CloudOutcome.success [5]
            webSpeechAvailable := true
            voices := []
            localOutcome1 := LocalOutcome.ends
            localOutcome2 := LocalOutcome.ends
            playbackOutcome := PlaybackOutcome.ended }
          { audioExists := false, isSpeaking := false } "你好" {}).effects) ∧
    (buildCloudRequest { DEFAULT_CONFIG with subscriptionKey := "k" } "你好" {}).ssmlVoice
      = "zh-CN-XiaoxiaoNeural" ∧
    pitchAttr (buildCloudRequest { DEFAULT_CONFIG with subscriptionKey := "k" } "你好" {})
      = "0%" ∧
    (buildCloudRequest { DEFAULT_CONFIG with subscriptionKey := "k" } "你好"
      { voice := some "zh-CN-YunxiNeural" }).ssmlVoice = "zh-CN-YunxiNeural" := by
  have h := C8_default_cloud_parameters_and_voice_override "k" "你好"
    { cloudOutcome := CloudOutcome.success [5]
      webSpeechAvailable := true
      voices := []
      localOutcome1 := LocalOutcome.ends
      localOutcome2 := LocalOutcome.ends
      playbackOutcome := PlaybackOutcome.ended }
    { audioExists := false, isSpeaking := false } [5] (by decide) rfl
  exact ⟨h.1, h.2.1, h.2.2.2.2.1,
    (h.2.2.2.2.2.2 "zh-CN-YunxiNeural" (by decide)).1⟩
